import Mathlib

/-!
Shallow embedding of src/src/sshfs_mount/sshfs_mount_handler.cpp (multipass).

The file models the SSHFS mount handler: the remote precondition prober
(has_sshfs), the remote installer (install_sshfs_for), the subprocess
readiness wait (start_and_block_until_connected), the exit-state inspection,
the start/stop lifecycle operations, and the destructor.

External collaborators (SSH session, launched subprocess, progress server)
are modelled as oracles describing one concrete run: an SSHSession maps a
command string to the observable result of executing it remotely; a
ProcessRun lists the stdout/exit events the launched subprocess delivers and
how it reacts to termination.  The handler functions are direct translations
of the C++ control flow over these oracles; where a step is observable
(remote command issued, progress message written, hostname queried, process
launched) the translation additionally records a trace event, so that
claims about call counts and ordering can be stated.

Exceptions are modelled with Except: each C++ throw site maps to an
Except.error carrying a MountError value of the corresponding kind.  The
long user-guidance texts of the two std::runtime_error throws in has_sshfs
are condensed to short recognizable messages; only the error kind and the
branch structure matter to the claims.
-/

deriving instance DecidableEq for Except

namespace Multipass

/-- Error kinds thrown by the handler, one constructor per throw site kind:
ConnectionFailure for SSHSession construction failure, unsupportedRemote for
the two guidance-text runtime_errors in has_sshfs, mountSupportMissing for
SSHFSMissingError, subprocessFailure for the runtime_error built from the
process exit state (carrying read_all_standard_error), terminationTimeout
for the runtime_error in stop_impl (carrying read_all_standard_error). -/
inductive MountError where
  | connectionFailure
  | unsupportedRemote (msg : String)
  | mountSupportMissing
  | subprocessFailure (stderr : String)
  | terminationTimeout (stderr : String)
  deriving DecidableEq, Repr

/-- Outcome of the bounded-wait exit-code query proc.exit_code(timeout) on a
remote SSH process: either the process exited with a code within the
timeout, or the query raised ExitlessSSHProcessException. -/
inductive ExitOutcome where
  | exited (code : Int)
  | exitless
  deriving DecidableEq, Repr

/-- Observable result of executing one remote command over the SSH session:
the exit code returned by the blocking exit_code() query, the outcome of the
bounded exit_code(timeout) query for the timeout of this run, and the text
read_std_error() returns. -/
structure SSHProc where
  exit_code : Int
  timed_exit : ExitOutcome
  std_error : String

/-- Oracle for an established SSH session: the observable result of each
remote command executed through it during one run. -/
structure SSHSession where
  exec : String → SSHProc

/-- Probe command of has_sshfs checking for snap support. -/
def snap_probe_cmd : String := "which snap"

/-- Probe command of has_sshfs checking whether multipass-sshfs is already
installed. -/
def list_probe_cmd : String := "sudo snap list multipass-sshfs"

/-- Probe command of has_sshfs checking the classic-snap-support marker. -/
def classic_probe_cmd : String := "[ -e /snap ]"

/-- Remote command issued by install_sshfs_for. -/
def install_cmd : String := "sudo snap install multipass-sshfs"

/-- Guidance message of the first has_sshfs throw (condensed from the C++
format string; the kind, not the wording, is what the claims inspect). -/
def snap_missing_msg (name : String) : String :=
  "Snap support needs to be installed in " ++ name ++ " in order to support mounts."

/-- Guidance message of the second has_sshfs throw (condensed likewise). -/
def classic_missing_msg (name : String) : String :=
  "Classic snap support is not enabled for " ++ name ++ "!"

/-- Translation of has_sshfs (sshfs_mount_handler.cpp lines 51-87).  Runs the
three probes in source order, classifying each solely by the exit code of
its remote command, short-circuiting exactly as the C++ does.  Besides the
bool-or-throw result it returns the list of remote commands actually
executed, in order, so that short-circuiting is observable.  The mpl::log
side effects are omitted. -/
def has_sshfs (name : String) (session : SSHSession) :
    Except MountError Bool × List String :=
  if (session.exec snap_probe_cmd).exit_code ≠ 0 then
    (Except.error (MountError.unsupportedRemote (snap_missing_msg name)), [snap_probe_cmd])
  else if (session.exec list_probe_cmd).exit_code = 0 then
    (Except.ok true, [snap_probe_cmd, list_probe_cmd])
  else if (session.exec classic_probe_cmd).exit_code ≠ 0 then
    (Except.error (MountError.unsupportedRemote (classic_missing_msg name)),
      [snap_probe_cmd, list_probe_cmd, classic_probe_cmd])
  else
    (Except.ok false, [snap_probe_cmd, list_probe_cmd, classic_probe_cmd])

/-- Translation of install_sshfs_for (lines 89-106).  Executes the install
command; if exit_code(timeout) raises ExitlessSSHProcessException the catch
block rethrows SSHFSMissingError; if it returns a non-zero code the function
throws SSHFSMissingError; on zero it returns normally. -/
def install_sshfs_for (name : String) (session : SSHSession) :
    Except MountError Unit :=
  let _ := name
  match (session.exec install_cmd).timed_exit with
  | ExitOutcome.exitless => Except.error MountError.mountSupportMissing
  | ExitOutcome.exited code =>
      if code ≠ 0 then Except.error MountError.mountSupportMissing
      else Except.ok ()

/-- ProcessState as observed through mp::Process::process_state(): the exit
code when the process has exited (none while it is still running or when it
failed structurally without an exit code), and whether the structural error
field is engaged. -/
structure ProcessState where
  exit_code : Option Int
  error : Bool
  deriving DecidableEq, Repr

/-- Substring test on character lists: listStartsWith hay pat is true when
pat is an initial segment of hay. -/
def listStartsWith : List Char → List Char → Bool
  | _, [] => true
  | [], _ :: _ => false
  | h :: hs, p :: ps => (h = p) && listStartsWith hs ps

/-- Substring test on character lists: listHasSub hay pat is true when pat
occurs contiguously somewhere in hay. -/
def listHasSub : List Char → List Char → Bool
  | [], pat => pat.isEmpty
  | h :: hs, pat => listStartsWith (h :: hs) pat || listHasSub hs pat

/-- QByteArray::contains as used on the freshly read stdout data: a
case-sensitive, non-line-anchored substring test. -/
def qcontains (hay pat : String) : Bool :=
  listHasSub hay.toList pat.toList

/-- Magic string printed by sshfs_server (line 38). -/
def connected_token : String := "Connected"

/-- Event delivered by the launched subprocess while the event loop of
start_and_block_until_connected runs: either a ready_read_standard_output
notification, carrying the data that read_all_standard_output() returns at
that point (reading consumes the buffer), or the finished notification
carrying the exit state. -/
inductive ProcEvent where
  | outChunk (data : String)
  | finished (st : ProcessState)
  deriving DecidableEq, Repr

/-- Outcome of the readiness wait: ready when the event loop quit because a
read chunk contained the token (process still running), exited when it quit
because the process finished first. -/
inductive AwaitOutcome where
  | ready
  | exited (st : ProcessState)
  deriving DecidableEq, Repr

/-- Translation of start_and_block_until_connected (lines 33-49).  The event
loop delivers the subprocess events in order; on each output notification
the lambda reads all currently buffered output and quits if that data
contains the magic string; on the finished notification it quits.  Returns
none when neither condition ever fires (the wait is unbounded: the C++
function never returns in that case). -/
def start_and_block_until_connected : List ProcEvent → Option AwaitOutcome
  | [] => none
  | ProcEvent.outChunk data :: rest =>
      if qcontains data connected_token then some AwaitOutcome.ready
      else start_and_block_until_connected rest
  | ProcEvent.finished st :: _ => some (AwaitOutcome.exited st)

/-- Exit state observed by process_state() right after the wait returns:
when the wait ended with the finished notification it is the captured exit
state; when it ended on the token the process is still running, so the exit
code is disengaged and no structural error is set. -/
def observed_state : AwaitOutcome → ProcessState
  | AwaitOutcome.ready => { exit_code := none, error := false }
  | AwaitOutcome.exited st => st

/-- Translation of the exit-state inspection at the end of start_impl (lines
175-181): exit code 9 (magic number returned by sshfs_server) throws
SSHFSMissingError; otherwise an engaged exit code or an engaged error field
throws the runtime_error whose message embeds read_all_standard_error()
verbatim; otherwise start_impl returns normally. -/
def check_exit_state (ps : ProcessState) (stderr : String) :
    Except MountError Unit :=
  if ps.exit_code = some 9 then Except.error MountError.mountSupportMissing
  else if ps.exit_code.isSome || ps.error then
    Except.error (MountError.subprocessFailure stderr)
  else Except.ok ()

/-- The VM collaborator as the handler observes it: identity and the SSH
connection parameters its accessors return during this run.  ssh_hostname is
the value the host-resolution capability vm->ssh_hostname() yields when
queried during start. -/
structure VMInfo where
  vm_name : String
  ssh_port : Nat
  ssh_username : String
  ssh_hostname : String
  deriving DecidableEq, Repr

/-- The parts of the VMMount record the handler reads. -/
structure VMMount where
  source_path : String
  uid_mappings : List (Int × Int)
  gid_mappings : List (Int × Int)
  deriving DecidableEq, Repr

/-- SSHFSServerConfig as built by the handler constructor and completed in
start_impl: the value object handed to make_sshfs_server_process. -/
structure SSHFSServerConfig where
  host : String
  port : Nat
  username : String
  instance_name : String
  private_key : String
  source_path : String
  target_path : String
  uid_mappings : List (Int × Int)
  gid_mappings : List (Int × Int)
  deriving DecidableEq, Repr

/-- Behavior of the launched sshfs_server subprocess in one run: the events
it delivers after start(), the text read_all_standard_error() returns, and
how long after a terminate() request it takes to finish (none when it never
finishes). -/
structure ProcessRun where
  events : List ProcEvent
  all_std_error : String
  termination_time : Option Nat
  deriving DecidableEq, Repr

/-- Handler state the claims inspect: the subprocess handle (null until
make_sshfs_server_process is called) and the stored config. -/
structure SSHFSMountHandler where
  process : Option ProcessRun
  config : SSHFSServerConfig
  deriving DecidableEq, Repr

/-- Translation of the SSHFSMountHandler constructor (lines 111-127): the
process handle starts null and the config is built with an empty host, the
VM connection parameters, the key material and the mount description. -/
def SSHFSMountHandler.construct (vm : VMInfo) (key_b64 : String)
    (target : String) (mount : VMMount) : SSHFSMountHandler :=
  { process := none
    config :=
      { host := ""
        port := vm.ssh_port
        username := vm.ssh_username
        instance_name := vm.vm_name
        private_key := key_b64
        source_path := mount.source_path
        target_path := target
        uid_mappings := mount.uid_mappings
        gid_mappings := mount.gid_mappings } }

/-- Environment for one run of start_impl: whether SSHSession construction
succeeds, the session oracle once connected, whether the ServerVariant holds
a non-null server (the progress sink), and the behavior of the subprocess
that would be launched. -/
structure StartRun where
  connects : Bool
  session : SSHSession
  server_present : Bool
  proc : ProcessRun

/-- Observable steps of start_impl, recorded in order: a query of the
host-resolution capability vm->ssh_hostname(), a remote command executed
through the session, a progress message written to the server, a call into
install_sshfs_for, and the launch of the subprocess with the config passed
to make_sshfs_server_process. -/
inductive StartEvent where
  | queryHostname
  | execCmd (cmd : String)
  | progressMsg (msg : String)
  | installAttempt
  | launched (cfg : SSHFSServerConfig)
  deriving DecidableEq, Repr

/-- Progress text written through the server in start_impl (line 138). -/
def enabling_msg : String := "Enabling support for mounting"

/-- Result of one run of start_impl: either the function returned (normally
or by throwing), or it blocked forever inside the readiness wait. -/
inductive StartResult where
  | returned (r : Except MountError Unit)
  | blocked
  deriving DecidableEq, Repr

/-- Translation of SSHFSMountHandler::start_impl (lines 129-182) over the
run environment.  Source order: construct the SSH session (querying
vm->ssh_hostname() for its first argument); run has_sshfs; when it reports
false, write one progress message to the server if one is present and call
install_sshfs_for; query vm->ssh_hostname() again to fill config.host;
launch the subprocess with that config; block until the token or exit; then
inspect the observed process state.  Returns the outcome, the handler state
after the run, and the trace of observable steps. -/
def SSHFSMountHandler.start_impl (h : SSHFSMountHandler) (vm : VMInfo)
    (r : StartRun) : StartResult × SSHFSMountHandler × List StartEvent :=
  let ev0 : List StartEvent := [StartEvent.queryHostname]
  if ¬ r.connects then
    (StartResult.returned (Except.error MountError.connectionFailure), h, ev0)
  else
    match has_sshfs vm.vm_name r.session with
    | (Except.error e, cmds) =>
        (StartResult.returned (Except.error e), h, ev0 ++ cmds.map StartEvent.execCmd)
    | (Except.ok ready, cmds) =>
        let ev1 := ev0 ++ cmds.map StartEvent.execCmd
        let step2 : Except MountError Unit × List StartEvent :=
          if ready then (Except.ok (), ev1)
          else
            let ev1p := if r.server_present
              then ev1 ++ [StartEvent.progressMsg enabling_msg]
              else ev1
            (install_sshfs_for vm.vm_name r.session, ev1p ++ [StartEvent.installAttempt])
        match step2 with
        | (Except.error e, ev2) => (StartResult.returned (Except.error e), h, ev2)
        | (Except.ok _, ev2) =>
            let cfg := { h.config with host := vm.ssh_hostname }
            let h2 : SSHFSMountHandler := { process := some r.proc, config := cfg }
            let ev4 := ev2 ++ [StartEvent.queryHostname, StartEvent.launched cfg]
            match start_and_block_until_connected r.proc.events with
            | none => (StartResult.blocked, h2, ev4)
            | some outcome =>
                (StartResult.returned
                  (check_exit_state (observed_state outcome) r.proc.all_std_error),
                 h2, ev4)

/-- Process::wait_for_finished(deadline) after a terminate() request: true
exactly when the process finishes within the deadline (milliseconds). -/
def wait_for_finished (p : ProcessRun) (deadline : Nat) : Bool :=
  match p.termination_time with
  | some t => t ≤ deadline
  | none => false

/-- Translation of SSHFSMountHandler::stop_impl (lines 184-190): request
termination, wait up to the fixed 5000 ms deadline, and throw the
runtime_error carrying read_all_standard_error() when the process is still
alive when the deadline elapses. -/
def stop_impl (p : ProcessRun) : Except MountError Unit :=
  if wait_for_finished p 5000 then Except.ok ()
  else Except.error (MountError.terminationTimeout p.all_std_error)

/-- Lifecycle stage of the handler per the spec state machine. -/
inductive HandlerStage where
  | constructed
  | starting
  | running
  | stopping
  | stopped
  deriving DecidableEq, Repr

/-- Modelled from the spec: the MountHandler base-class stop() wrapper is
not under src/ (only stop_impl is).  Per the spec, stop on a handler that
already reached Stopped is a no-op; otherwise it transitions to Stopping,
performs the termination via stop_impl, and transitions to Stopped on
success.  The boolean records whether a terminate request was sent to the
subprocess during this call. -/
def MountHandler.stop (stage : HandlerStage) (p : ProcessRun) :
    Except MountError HandlerStage × Bool :=
  if stage = HandlerStage.stopped then (Except.ok HandlerStage.stopped, false)
  else
    match stop_impl p with
    | Except.ok _ => (Except.ok HandlerStage.stopped, true)
    | Except.error e => (Except.error e, true)

/-- Diagnostic record emitted through the logger. -/
structure LogRecord where
  level : String
  text : String
  deriving DecidableEq, Repr

/-- Message text of a MountError as it would surface through what(). -/
def MountError.what : MountError → String
  | MountError.connectionFailure => "cannot connect"
  | MountError.unsupportedRemote msg => msg
  | MountError.mountSupportMissing => "SSHFS is missing"
  | MountError.subprocessFailure stderr => stderr
  | MountError.terminationTimeout stderr =>
      "Failed to terminate SSHFS mount process: " ++ stderr

/-- Translation of the destructor (lines 192-204): call stop() once inside
a try block; catch any exception and log it at warning level.  The first
component is the exception propagating out of the destructor (always none,
because the catch handler swallows the failure), the second counts the stop
attempts made, the third is the emitted log. -/
def SSHFSMountHandler.destruct (stage : HandlerStage) (p : ProcessRun)
    (target vm_name : String) : Option MountError × Nat × List LogRecord :=
  match (MountHandler.stop stage p).1 with
  | Except.ok _ => (none, 1, [])
  | Except.error e =>
      (none, 1,
        [{ level := "warning"
           text := "Failed to gracefully stop mount " ++ target ++
             " in instance " ++ vm_name ++ ": " ++ e.what }])

/-! Concrete fixtures used by witnesses and counterexamples. -/

/-- Sample VM collaborator. -/
def vm0 : VMInfo :=
  { vm_name := "primary", ssh_port := 22, ssh_username := "ubuntu",
    ssh_hostname := "192.168.64.2" }

/-- Sample mount description. -/
def mount0 : VMMount :=
  { source_path := "/home/u/src", uid_mappings := [(1000, 1000)],
    gid_mappings := [(1000, 1000)] }

/-- Handler right after construction. -/
def handler0 : SSHFSMountHandler :=
  SSHFSMountHandler.construct vm0 "KEY64" "/mnt/src" mount0

/-- Session on which every remote command exits 0: snap support present and
multipass-sshfs already installed. -/
def session_ready : SSHSession :=
  { exec := fun _ =>
      { exit_code := 0, timed_exit := ExitOutcome.exited 0, std_error := "" } }

/-- Session on which the installed-package probe exits 1 and everything
else exits 0: installable but not yet installed, install succeeds. -/
def session_notready : SSHSession :=
  { exec := fun cmd =>
      if cmd = list_probe_cmd then
        { exit_code := 1, timed_exit := ExitOutcome.exited 0, std_error := "" }
      else
        { exit_code := 0, timed_exit := ExitOutcome.exited 0, std_error := "" } }

/-- Session on which the install command exits 1 within the timeout. -/
def session_install_fail : SSHSession :=
  { exec := fun cmd =>
      if cmd = list_probe_cmd then
        { exit_code := 1, timed_exit := ExitOutcome.exited 0, std_error := "" }
      else if cmd = install_cmd then
        { exit_code := 0, timed_exit := ExitOutcome.exited 1,
          std_error := "snap install failed" }
      else
        { exit_code := 0, timed_exit := ExitOutcome.exited 0, std_error := "" } }

/-- Subprocess that prints the readiness token and keeps running; it obeys
termination promptly. -/
def proc_ok : ProcessRun :=
  { events := [ProcEvent.outChunk "sshfs_server: Connected to instance"],
    all_std_error := "", termination_time := some 100 }

/-- Subprocess that exits with the sentinel code 9 before any token. -/
def proc_exit9 : ProcessRun :=
  { events := [ProcEvent.finished { exit_code := some 9, error := false }],
    all_std_error := "sshfs not found in instance", termination_time := some 0 }

/-- Subprocess that exits with code 1 before any token. -/
def proc_exit1 : ProcessRun :=
  { events := [ProcEvent.finished { exit_code := some 1, error := false }],
    all_std_error := "mount point does not exist", termination_time := some 0 }

/-- Subprocess that never finishes, even after a terminate request. -/
def proc_stuck : ProcessRun :=
  { events := [], all_std_error := "still busy", termination_time := none }

/-! Theorems settling the claims. -/

/-- C2: has_sshfs runs its probes in a fixed short-circuiting order and
classifies each solely by the remote command's exit code: a non-zero
package-management probe fails with the unsupported-remote error after
running only that probe; otherwise a zero installed-package probe returns
true (ready) without the third probe; otherwise a non-zero
confinement-marker probe fails with the unsupported-remote error; otherwise
it returns false (not ready).  The command trace makes the short-circuiting
explicit, and classification depends only on the exit codes because the
statement quantifies over every session oracle with the given exit codes,
whatever output text it produces. -/
theorem claim_C2_probe_order (name : String) (s : SSHSession) :
    ((s.exec snap_probe_cmd).exit_code ≠ 0 →
      has_sshfs name s =
        (Except.error (MountError.unsupportedRemote (snap_missing_msg name)),
          [snap_probe_cmd])) ∧
    ((s.exec snap_probe_cmd).exit_code = 0 →
      (s.exec list_probe_cmd).exit_code = 0 →
      has_sshfs name s = (Except.ok true, [snap_probe_cmd, list_probe_cmd])) ∧
    ((s.exec snap_probe_cmd).exit_code = 0 →
      (s.exec list_probe_cmd).exit_code ≠ 0 →
      (s.exec classic_probe_cmd).exit_code ≠ 0 →
      has_sshfs name s =
        (Except.error (MountError.unsupportedRemote (classic_missing_msg name)),
          [snap_probe_cmd, list_probe_cmd, classic_probe_cmd])) ∧
    ((s.exec snap_probe_cmd).exit_code = 0 →
      (s.exec list_probe_cmd).exit_code ≠ 0 →
      (s.exec classic_probe_cmd).exit_code = 0 →
      has_sshfs name s =
        (Except.ok false, [snap_probe_cmd, list_probe_cmd, classic_probe_cmd])) := by
  refine ⟨fun h1 => ?_, fun h1 h2 => ?_, fun h1 h2 h3 => ?_, fun h1 h2 h3 => ?_⟩
  · simp [has_sshfs, h1]
  · simp [has_sshfs, h1, h2]
  · simp [has_sshfs, h1, h2, h3]
  · simp [has_sshfs, h1, h2, h3]

/-- Witness for C2: on a session where the first two probes exit 0,
has_sshfs reports ready after exactly the first two probes. -/
theorem claim_C2_witness :
    has_sshfs "primary" session_ready =
      (Except.ok true, [snap_probe_cmd, list_probe_cmd]) :=
  (claim_C2_probe_order "primary" session_ready).2.1 (by decide) (by decide)

/-- C3: install_sshfs_for fails with the missing-support error both when the
remote install command exits non-zero within the timeout and when the
bounded exit-code wait signals the exitless condition; every error it can
return is that one kind; and a zero exit within the timeout returns
success. -/
theorem claim_C3_installer (name : String) (s : SSHSession) :
    (∀ code : Int, (s.exec install_cmd).timed_exit = ExitOutcome.exited code →
      code ≠ 0 →
      install_sshfs_for name s = Except.error MountError.mountSupportMissing) ∧
    ((s.exec install_cmd).timed_exit = ExitOutcome.exitless →
      install_sshfs_for name s = Except.error MountError.mountSupportMissing) ∧
    ((s.exec install_cmd).timed_exit = ExitOutcome.exited 0 →
      install_sshfs_for name s = Except.ok ()) ∧
    (∀ e, install_sshfs_for name s = Except.error e →
      e = MountError.mountSupportMissing) := by
  refine ⟨fun code hx hnz => ?_, fun hx => ?_, fun hx => ?_, fun e he => ?_⟩
  · simp [install_sshfs_for, hx, hnz]
  · simp [install_sshfs_for, hx]
  · simp [install_sshfs_for, hx]
  · unfold install_sshfs_for at he
    cases hx : (s.exec install_cmd).timed_exit with
    | exitless => simp [hx] at he; exact he.symm
    | exited code =>
        simp [hx] at he
        by_cases hz : code = 0
        · simp [hz] at he
        · simp [hz] at he; exact he.symm

/-- Witness for C3: on a session where the install command exits 1 within
the timeout, install_sshfs_for fails with the missing-support error. -/
theorem claim_C3_witness :
    install_sshfs_for "primary" session_install_fail =
      Except.error MountError.mountSupportMissing :=
  (claim_C3_installer "primary" session_install_fail).1 1 (by decide) (by decide)

/-- C4: stop_impl requests termination and waits with the fixed 5000 ms
deadline: when the process finishes within the deadline it returns without
error; when the process is still alive once the deadline elapses it fails
with the termination-timeout error carrying the captured stderr text. -/
theorem claim_C4_stop_deadline (p : ProcessRun) :
    (∀ t, p.termination_time = some t → t ≤ 5000 → stop_impl p = Except.ok ()) ∧
    ((∀ t, p.termination_time = some t → 5000 < t) →
      stop_impl p = Except.error (MountError.terminationTimeout p.all_std_error)) := by
  constructor
  · intro t ht hle
    simp [stop_impl, wait_for_finished, ht, hle]
  · intro hlate
    cases ht : p.termination_time with
    | none => simp [stop_impl, wait_for_finished, ht]
    | some t =>
        have : 5000 < t := hlate t ht
        simp [stop_impl, wait_for_finished, ht, Nat.not_le.mpr this]

/-- Witness for C4: a process that finishes 100 ms after the terminate
request makes stop_impl succeed, and one that never finishes makes it fail
with the termination-timeout error carrying its stderr. -/
theorem claim_C4_witness :
    stop_impl proc_ok = Except.ok () ∧
    stop_impl proc_stuck =
      Except.error (MountError.terminationTimeout "still busy") :=
  ⟨(claim_C4_stop_deadline proc_ok).1 100 (by decide) (by decide),
   (claim_C4_stop_deadline proc_stuck).2 (by intro t ht; simp [proc_stuck] at ht)⟩

/-- C9: stop is idempotent after success.  Whenever a stop call succeeded
(necessarily leaving the handler Stopped), a second stop call returns
without error, leaves the stage unchanged, and sends no terminate request
to the subprocess, whatever the subprocess would do. -/
theorem claim_C9_stop_idempotent (stage st2 : HandlerStage) (p p2 : ProcessRun)
    (h : (MountHandler.stop stage p).1 = Except.ok st2) :
    MountHandler.stop st2 p2 = (Except.ok st2, false) := by
  have hst : st2 = HandlerStage.stopped := by
    unfold MountHandler.stop at h
    by_cases hs : stage = HandlerStage.stopped
    · simp [hs] at h
      exact h.symm
    · simp [hs] at h
      cases hsi : stop_impl p with
      | ok u => simp [hsi] at h; exact h.symm
      | error e => simp [hsi] at h
  subst hst
  simp [MountHandler.stop]

/-- Witness for C9: after stopping a running handler whose process obeys
termination, a second stop on the stopped handler is a no-op. -/
theorem claim_C9_witness :
    MountHandler.stop HandlerStage.stopped proc_stuck =
      (Except.ok HandlerStage.stopped, false) :=
  claim_C9_stop_idempotent HandlerStage.running HandlerStage.stopped proc_ok
    proc_stuck (by decide)

/-- C7: the destructor attempts stop exactly once, and any failure raised by
that implicit stop call is swallowed into a warning log record: the error
propagating out of destruction is always none, the stop-attempt count is
always one, and when the stop call fails the emitted log consists of the
single warning record describing that failure. -/
theorem claim_C7_destructor_swallows (stage : HandlerStage) (p : ProcessRun)
    (target vm_name : String) :
    (SSHFSMountHandler.destruct stage p target vm_name).1 = none ∧
    (SSHFSMountHandler.destruct stage p target vm_name).2.1 = 1 ∧
    (∀ e, (MountHandler.stop stage p).1 = Except.error e →
      (SSHFSMountHandler.destruct stage p target vm_name).2.2 =
        [{ level := "warning"
           text := "Failed to gracefully stop mount " ++ target ++
             " in instance " ++ vm_name ++ ": " ++ e.what }]) := by
  unfold SSHFSMountHandler.destruct
  cases hs : (MountHandler.stop stage p).1 with
  | ok st =>
      refine ⟨rfl, rfl, fun e he => ?_⟩
      cases he
  | error e0 =>
      refine ⟨rfl, rfl, fun e he => ?_⟩
      cases he
      rfl

/-- Witness for C7: destroying a running handler whose process ignores
termination propagates nothing, attempts stop once, and logs the
termination-timeout failure at warning level. -/
theorem claim_C7_witness :
    (SSHFSMountHandler.destruct HandlerStage.running proc_stuck "/mnt/src" "primary").1 =
      none ∧
    (SSHFSMountHandler.destruct HandlerStage.running proc_stuck "/mnt/src" "primary").2.1 =
      1 ∧
    (SSHFSMountHandler.destruct HandlerStage.running proc_stuck "/mnt/src" "primary").2.2 =
      [{ level := "warning"
         text := "Failed to gracefully stop mount /mnt/src in instance primary: " ++
           "Failed to terminate SSHFS mount process: still busy" }] := by
  have H := claim_C7_destructor_swallows HandlerStage.running proc_stuck
    "/mnt/src" "primary"
  refine ⟨H.1, H.2.1, ?_⟩
  rw [H.2.2 (MountError.terminationTimeout "still busy") (by decide)]
  rfl

/-- Result of the readiness wait and exit-state inspection at the tail of
start_impl, as a function of the run (proof-layer abbreviation). -/
def await_result (r : StartRun) : StartResult :=
  match start_and_block_until_connected r.proc.events with
  | none => StartResult.blocked
  | some o =>
      StartResult.returned (check_exit_state (observed_state o) r.proc.all_std_error)

/-- Shape of a run of start_impl when the session fails to connect. -/
lemma start_impl_eq_noconn (h : SSHFSMountHandler) (vm : VMInfo) (r : StartRun)
    (hc : r.connects = false) :
    h.start_impl vm r =
      (StartResult.returned (Except.error MountError.connectionFailure), h,
        [StartEvent.queryHostname]) := by
  unfold SSHFSMountHandler.start_impl
  simp [hc]

/-- Shape of a run of start_impl when a probe throws. -/
lemma start_impl_eq_probe_err (h : SSHFSMountHandler) (vm : VMInfo) (r : StartRun)
    (e : MountError) (cmds : List String) (hc : r.connects = true)
    (hp : has_sshfs vm.vm_name r.session = (Except.error e, cmds)) :
    h.start_impl vm r =
      (StartResult.returned (Except.error e), h,
        [StartEvent.queryHostname] ++ cmds.map StartEvent.execCmd) := by
  unfold SSHFSMountHandler.start_impl
  simp [hc, hp]

/-- Shape of a run of start_impl when the probe reports ready: no progress
message, no install attempt, the host queried again and the subprocess
launched with the completed config, then the wait and the inspection. -/
lemma start_impl_eq_ready (h : SSHFSMountHandler) (vm : VMInfo) (r : StartRun)
    (cmds : List String) (hc : r.connects = true)
    (hp : has_sshfs vm.vm_name r.session = (Except.ok true, cmds)) :
    h.start_impl vm r =
      (await_result r,
        { process := some r.proc, config := { h.config with host := vm.ssh_hostname } },
        [StartEvent.queryHostname] ++ cmds.map StartEvent.execCmd ++
          [StartEvent.queryHostname,
           StartEvent.launched { h.config with host := vm.ssh_hostname }]) := by
  unfold SSHFSMountHandler.start_impl
  cases hsb : start_and_block_until_connected r.proc.events with
  | none => simp [hc, hp, hsb, await_result]
  | some o => simp [hc, hp, hsb, await_result]

/-- Shape of a run of start_impl when the probe reports not ready and the
install succeeds: one progress message when the server is present, then the
install attempt, then host query, launch, wait and inspection. -/
lemma start_impl_eq_notready_ok (h : SSHFSMountHandler) (vm : VMInfo)
    (r : StartRun) (cmds : List String) (hc : r.connects = true)
    (hp : has_sshfs vm.vm_name r.session = (Except.ok false, cmds))
    (hi : install_sshfs_for vm.vm_name r.session = Except.ok ()) :
    h.start_impl vm r =
      (await_result r,
        { process := some r.proc, config := { h.config with host := vm.ssh_hostname } },
        [StartEvent.queryHostname] ++ cmds.map StartEvent.execCmd ++
          (if r.server_present then [StartEvent.progressMsg enabling_msg] else []) ++
          [StartEvent.installAttempt, StartEvent.queryHostname,
           StartEvent.launched { h.config with host := vm.ssh_hostname }]) := by
  unfold SSHFSMountHandler.start_impl
  cases hsp : r.server_present with
  | false =>
      cases hsb : start_and_block_until_connected r.proc.events with
      | none => simp [hc, hp, hi, hsp, hsb, await_result]
      | some o => simp [hc, hp, hi, hsp, hsb, await_result]
  | true =>
      cases hsb : start_and_block_until_connected r.proc.events with
      | none => simp [hc, hp, hi, hsp, hsb, await_result]
      | some o => simp [hc, hp, hi, hsp, hsb, await_result]

/-- Shape of a run of start_impl when the probe reports not ready and the
install throws: the error propagates, the trace ends at the install
attempt, and the handler is unchanged. -/
lemma start_impl_eq_notready_err (h : SSHFSMountHandler) (vm : VMInfo)
    (r : StartRun) (cmds : List String) (e : MountError) (hc : r.connects = true)
    (hp : has_sshfs vm.vm_name r.session = (Except.ok false, cmds))
    (hi : install_sshfs_for vm.vm_name r.session = Except.error e) :
    h.start_impl vm r =
      (StartResult.returned (Except.error e), h,
        [StartEvent.queryHostname] ++ cmds.map StartEvent.execCmd ++
          (if r.server_present then [StartEvent.progressMsg enabling_msg] else []) ++
          [StartEvent.installAttempt]) := by
  unfold SSHFSMountHandler.start_impl
  cases hsp : r.server_present with
  | false => simp [hc, hp, hi, hsp]
  | true => simp [hc, hp, hi, hsp]

/-- Run in which everything is ready and the subprocess exits with the
sentinel code 9 before the token. -/
def run_exit9 : StartRun :=
  { connects := true, session := session_ready, server_present := false,
    proc := proc_exit9 }

/-- Run in which everything is ready and the subprocess exits with code 1
before the token. -/
def run_exit1 : StartRun :=
  { connects := true, session := session_ready, server_present := false,
    proc := proc_exit1 }

/-- Run in which everything is ready and the subprocess prints the token. -/
def run_ok : StartRun :=
  { connects := true, session := session_ready, server_present := false,
    proc := proc_ok }

/-- Run in which support must be installed first, a progress server is
present, and the subprocess then prints the token. -/
def run_install_ok : StartRun :=
  { connects := true, session := session_notready, server_present := true,
    proc := proc_ok }

/-- C1: after the readiness wait returns with the subprocess exited, start
inspects the captured exit state: exit code 9 always maps to the
missing-support error, regardless of the captured stderr; any other
non-zero exit code, or an engaged structural error flag (with the exit code
not 9), maps to the subprocess-failure error carrying the captured stderr
text verbatim. -/
theorem claim_C1_exit_state_mapping (h : SSHFSMountHandler) (vm : VMInfo)
    (r : StartRun) (ready : Bool) (cmds : List String) (ps : ProcessState)
    (hc : r.connects = true)
    (hp : has_sshfs vm.vm_name r.session = (Except.ok ready, cmds))
    (hi : ready = false → install_sshfs_for vm.vm_name r.session = Except.ok ())
    (hw : start_and_block_until_connected r.proc.events =
      some (AwaitOutcome.exited ps)) :
    (ps.exit_code = some 9 →
      (h.start_impl vm r).1 =
        StartResult.returned (Except.error MountError.mountSupportMissing)) ∧
    ((∃ c, ps.exit_code = some c ∧ c ≠ 9 ∧ c ≠ 0) ∨
        (ps.error = true ∧ ps.exit_code ≠ some 9) →
      (h.start_impl vm r).1 =
        StartResult.returned
          (Except.error (MountError.subprocessFailure r.proc.all_std_error))) := by
  have hres : (h.start_impl vm r).1 =
      StartResult.returned (check_exit_state ps r.proc.all_std_error) := by
    cases ready with
    | true =>
        rw [start_impl_eq_ready h vm r cmds hc hp]
        simp [await_result, hw, observed_state]
    | false =>
        rw [start_impl_eq_notready_ok h vm r cmds hc hp (hi rfl)]
        simp [await_result, hw, observed_state]
  constructor
  · intro h9
    rw [hres]
    simp [check_exit_state, h9]
  · rintro (⟨c, hcode, hne9, hne0⟩ | ⟨herr, hne9⟩)
    · rw [hres]
      simp [check_exit_state, hcode, hne9]
    · rw [hres]
      simp [check_exit_state, if_neg hne9, herr]

/-- Witness for C1: a run whose subprocess exits 9 makes start fail with the
missing-support error even though its stderr is non-empty, and a run whose
subprocess exits 1 makes start fail with the subprocess-failure error
carrying that stderr text. -/
theorem claim_C1_witness :
    (handler0.start_impl vm0 run_exit9).1 =
      StartResult.returned (Except.error MountError.mountSupportMissing) ∧
    (handler0.start_impl vm0 run_exit1).1 =
      StartResult.returned
        (Except.error (MountError.subprocessFailure "mount point does not exist")) :=
  ⟨(claim_C1_exit_state_mapping handler0 vm0 run_exit9 true
      [snap_probe_cmd, list_probe_cmd] { exit_code := some 9, error := false }
      rfl (by decide) (fun hf => by cases hf) (by decide)).1 rfl,
   (claim_C1_exit_state_mapping handler0 vm0 run_exit1 true
      [snap_probe_cmd, list_probe_cmd] { exit_code := some 1, error := false }
      rfl (by decide) (fun hf => by cases hf) (by decide)).2
     (Or.inl ⟨1, rfl, by decide, by decide⟩)⟩

/-- Test for the progress-message trace event. -/
def isProgress : StartEvent → Bool
  | StartEvent.progressMsg _ => true
  | _ => false

/-- Test for the install-attempt trace event. -/
def isInstall : StartEvent → Bool
  | StartEvent.installAttempt => true
  | _ => false

/-- Test for the hostname-query trace event. -/
def isQueryHost : StartEvent → Bool
  | StartEvent.queryHostname => true
  | _ => false

/-- Test for the subprocess-launch trace event. -/
def isLaunch : StartEvent → Bool
  | StartEvent.launched _ => true
  | _ => false

/-- Remote-command trace events satisfy none of the other event tests. -/
lemma countP_map_exec_eq_zero (p : StartEvent → Bool)
    (hp : ∀ c, p (StartEvent.execCmd c) = false) (cmds : List String) :
    (cmds.map StartEvent.execCmd).countP p = 0 := by
  rw [List.countP_eq_zero]
  intro e he
  rcases List.mem_map.mp he with ⟨c, _, rfl⟩
  simp [hp c]

/-- C5: during start the installer is invoked if and only if the prober
reports not ready.  When the probe reports ready the trace contains no
install attempt; when it reports not ready the trace contains exactly one
install attempt, preceded by exactly one progress message when the progress
server is present and by none when it is absent, with no progress message
after the install attempt. -/
theorem claim_C5_install_iff_not_ready (h : SSHFSMountHandler) (vm : VMInfo)
    (r : StartRun) (ready : Bool) (cmds : List String)
    (hc : r.connects = true)
    (hp : has_sshfs vm.vm_name r.session = (Except.ok ready, cmds)) :
    (ready = true → (h.start_impl vm r).2.2.countP isInstall = 0) ∧
    (ready = false →
      (h.start_impl vm r).2.2.countP isInstall = 1 ∧
      ∃ l1 l2, (h.start_impl vm r).2.2 = l1 ++ StartEvent.installAttempt :: l2 ∧
        l1.countP isProgress = (if r.server_present then 1 else 0) ∧
        l2.countP isProgress = 0) := by
  constructor
  · rintro rfl
    rw [start_impl_eq_ready h vm r cmds hc hp]
    simp [List.countP_append, List.countP_cons,
      countP_map_exec_eq_zero isInstall (fun c => rfl), isInstall]
  · rintro rfl
    cases hins : install_sshfs_for vm.vm_name r.session with
    | ok u =>
        cases u
        rw [start_impl_eq_notready_ok h vm r cmds hc hp hins]
        refine ⟨?_, [StartEvent.queryHostname] ++ cmds.map StartEvent.execCmd ++
          (if r.server_present then [StartEvent.progressMsg enabling_msg] else []),
          [StartEvent.queryHostname,
           StartEvent.launched { h.config with host := vm.ssh_hostname }], ?_, ?_, ?_⟩
        · cases hsp : r.server_present <;>
            simp [hsp, List.countP_append, List.countP_cons,
              countP_map_exec_eq_zero isInstall (fun c => rfl), isInstall]
        · simp
        · cases hsp : r.server_present <;>
            simp [hsp, List.countP_append, List.countP_cons,
              countP_map_exec_eq_zero isProgress (fun c => rfl), isProgress]
        · simp [List.countP_cons, isProgress]
    | error e =>
        rw [start_impl_eq_notready_err h vm r cmds e hc hp hins]
        refine ⟨?_, [StartEvent.queryHostname] ++ cmds.map StartEvent.execCmd ++
          (if r.server_present then [StartEvent.progressMsg enabling_msg] else []),
          [], ?_, ?_, ?_⟩
        · cases hsp : r.server_present <;>
            simp [hsp, List.countP_append, List.countP_cons,
              countP_map_exec_eq_zero isInstall (fun c => rfl), isInstall]
        · simp
        · cases hsp : r.server_present <;>
            simp [hsp, List.countP_append, List.countP_cons,
              countP_map_exec_eq_zero isProgress (fun c => rfl), isProgress]
        · simp

/-- Witness for C5: a ready run never attempts install, and a not-ready run
with a progress server present attempts install exactly once with exactly
one preceding progress message. -/
theorem claim_C5_witness :
    (handler0.start_impl vm0 run_ok).2.2.countP isInstall = 0 ∧
    ((handler0.start_impl vm0 run_install_ok).2.2.countP isInstall = 1 ∧
      ∃ l1 l2, (handler0.start_impl vm0 run_install_ok).2.2 =
          l1 ++ StartEvent.installAttempt :: l2 ∧
        l1.countP isProgress = (if run_install_ok.server_present then 1 else 0) ∧
        l2.countP isProgress = 0) :=
  ⟨(claim_C5_install_iff_not_ready handler0 vm0 run_ok true
      [snap_probe_cmd, list_probe_cmd] rfl (by decide)).1 rfl,
   (claim_C5_install_iff_not_ready handler0 vm0 run_install_ok false
      [snap_probe_cmd, list_probe_cmd, classic_probe_cmd] rfl (by decide)).2 rfl⟩

/-- C8 counterexample: on a fully successful start run, the host-resolution
capability is queried twice, not a single time: once for the SSH session
argument and once to fill the config host, so the claim that it is queried
a single time during start is false. -/
theorem claim_C8_counterexample :
    (handler0.start_impl vm0 run_ok).1 = StartResult.returned (Except.ok ()) ∧
    (handler0.start_impl vm0 run_ok).2.2.countP isQueryHost = 2 ∧
    ¬ (handler0.start_impl vm0 run_ok).2.2.countP isQueryHost = 1 := by decide

/-- C8 as amended: the host is left unset (empty) at handler construction
and assigned during start; the host-resolution capability is queried twice
during start — once to open the SSH session and once, just before launch,
to fill the config — and the config passed to launch stores the
capability's result as its host. -/
theorem claim_C8_host_resolution (vm : VMInfo) (key target : String)
    (mount : VMMount) (r : StartRun) (ready : Bool) (cmds : List String)
    (hc : r.connects = true)
    (hp : has_sshfs vm.vm_name r.session = (Except.ok ready, cmds))
    (hi : ready = false → install_sshfs_for vm.vm_name r.session = Except.ok ()) :
    (SSHFSMountHandler.construct vm key target mount).config.host = "" ∧
    ((SSHFSMountHandler.construct vm key target mount).start_impl vm r).2.2.countP
      isQueryHost = 2 ∧
    StartEvent.launched
        { (SSHFSMountHandler.construct vm key target mount).config with
            host := vm.ssh_hostname } ∈
      ((SSHFSMountHandler.construct vm key target mount).start_impl vm r).2.2 := by
  refine ⟨rfl, ?_, ?_⟩
  · cases ready with
    | true =>
        rw [start_impl_eq_ready _ vm r cmds hc hp]
        simp [List.countP_append, List.countP_cons,
          countP_map_exec_eq_zero isQueryHost (fun c => rfl), isQueryHost]
    | false =>
        rw [start_impl_eq_notready_ok _ vm r cmds hc hp (hi rfl)]
        cases hsp : r.server_present <;>
          simp [hsp, List.countP_append, List.countP_cons,
            countP_map_exec_eq_zero isQueryHost (fun c => rfl), isQueryHost]
  · cases ready with
    | true =>
        rw [start_impl_eq_ready _ vm r cmds hc hp]
        simp
    | false =>
        rw [start_impl_eq_notready_ok _ vm r cmds hc hp (hi rfl)]
        simp

/-- Witness for the amended C8: on the concrete ready run the constructed
host is empty, the capability is queried twice, and the launch carries the
resolved host. -/
theorem claim_C8_witness :
    (SSHFSMountHandler.construct vm0 "KEY64" "/mnt/src" mount0).config.host = "" ∧
    ((SSHFSMountHandler.construct vm0 "KEY64" "/mnt/src" mount0).start_impl vm0
        run_ok).2.2.countP isQueryHost = 2 ∧
    StartEvent.launched
        { (SSHFSMountHandler.construct vm0 "KEY64" "/mnt/src" mount0).config with
            host := vm0.ssh_hostname } ∈
      ((SSHFSMountHandler.construct vm0 "KEY64" "/mnt/src" mount0).start_impl vm0
        run_ok).2.2 :=
  claim_C8_host_resolution vm0 "KEY64" "/mnt/src" mount0 run_ok true
    [snap_probe_cmd, list_probe_cmd] rfl (by decide) (fun hf => by cases hf)

/-- C10: start is atomic with respect to the subprocess handle on pre-launch
failures.  The handle is null after construction; and when the session
fails to connect, when a probe throws, or when the installer throws, start
propagates exactly that error, the handle is still null afterwards, and no
launch ever appears in the trace. -/
theorem claim_C10_prelaunch_atomicity (vm : VMInfo) (key target : String)
    (mount : VMMount) (r : StartRun) :
    (SSHFSMountHandler.construct vm key target mount).process = none ∧
    (r.connects = false →
      ((SSHFSMountHandler.construct vm key target mount).start_impl vm r).1 =
        StartResult.returned (Except.error MountError.connectionFailure) ∧
      ((SSHFSMountHandler.construct vm key target mount).start_impl vm r).2.1.process =
        none ∧
      ((SSHFSMountHandler.construct vm key target mount).start_impl vm r).2.2.countP
        isLaunch = 0) ∧
    (∀ e cmds, r.connects = true →
      has_sshfs vm.vm_name r.session = (Except.error e, cmds) →
      ((SSHFSMountHandler.construct vm key target mount).start_impl vm r).1 =
        StartResult.returned (Except.error e) ∧
      ((SSHFSMountHandler.construct vm key target mount).start_impl vm r).2.1.process =
        none ∧
      ((SSHFSMountHandler.construct vm key target mount).start_impl vm r).2.2.countP
        isLaunch = 0) ∧
    (∀ e cmds, r.connects = true →
      has_sshfs vm.vm_name r.session = (Except.ok false, cmds) →
      install_sshfs_for vm.vm_name r.session = Except.error e →
      ((SSHFSMountHandler.construct vm key target mount).start_impl vm r).1 =
        StartResult.returned (Except.error e) ∧
      ((SSHFSMountHandler.construct vm key target mount).start_impl vm r).2.1.process =
        none ∧
      ((SSHFSMountHandler.construct vm key target mount).start_impl vm r).2.2.countP
        isLaunch = 0) := by
  refine ⟨rfl, fun hc => ?_, fun e cmds hc hp => ?_, fun e cmds hc hp hi => ?_⟩
  · rw [start_impl_eq_noconn _ vm r hc]
    exact ⟨rfl, rfl, rfl⟩
  · rw [start_impl_eq_probe_err _ vm r e cmds hc hp]
    refine ⟨rfl, rfl, ?_⟩
    simp [List.countP_append, List.countP_cons,
      countP_map_exec_eq_zero isLaunch (fun c => rfl), isLaunch]
  · rw [start_impl_eq_notready_err _ vm r cmds e hc hp hi]
    refine ⟨rfl, rfl, ?_⟩
    cases hsp : r.server_present <;>
      simp [hsp, List.countP_append, List.countP_cons,
        countP_map_exec_eq_zero isLaunch (fun c => rfl), isLaunch]

/-- Session on which the snap-support probe exits 1: the remote lacks
package management. -/
def session_nosnap : SSHSession :=
  { exec := fun cmd =>
      if cmd = snap_probe_cmd then
        { exit_code := 1, timed_exit := ExitOutcome.exited 0, std_error := "" }
      else
        { exit_code := 0, timed_exit := ExitOutcome.exited 0, std_error := "" } }

/-- Run on which the first probe fails. -/
def run_nosnap : StartRun :=
  { connects := true, session := session_nosnap, server_present := true,
    proc := proc_ok }

/-- Witness for C10: on a run whose first probe fails, start propagates the
unsupported-remote error, leaves the handle null, and launches nothing. -/
theorem claim_C10_witness :
    ((SSHFSMountHandler.construct vm0 "KEY64" "/mnt/src" mount0).start_impl vm0
        run_nosnap).1 =
      StartResult.returned
        (Except.error (MountError.unsupportedRemote (snap_missing_msg "primary"))) ∧
    ((SSHFSMountHandler.construct vm0 "KEY64" "/mnt/src" mount0).start_impl vm0
        run_nosnap).2.1.process = none ∧
    ((SSHFSMountHandler.construct vm0 "KEY64" "/mnt/src" mount0).start_impl vm0
        run_nosnap).2.2.countP isLaunch = 0 :=
  (claim_C10_prelaunch_atomicity vm0 "KEY64" "/mnt/src" mount0 run_nosnap).2.2.1
    (MountError.unsupportedRemote (snap_missing_msg "primary")) [snap_probe_cmd]
    rfl (by decide)

/-- Test for an output notification whose freshly read data does not
contain the readiness token (and is not the finished notification). -/
def chunk_quiet : ProcEvent → Bool
  | ProcEvent.outChunk s => ! qcontains s connected_token
  | ProcEvent.finished _ => false

/-- Readiness-wait events that neither match the token nor finish the
process are skipped without ending the wait. -/
lemma await_skips_quiet (l1 rest : List ProcEvent) :
    (∀ e ∈ l1, chunk_quiet e = true) →
    start_and_block_until_connected (l1 ++ rest) =
      start_and_block_until_connected rest := by
  induction l1 with
  | nil => intro _; rfl
  | cons e l ih =>
      intro hq
      have he := hq e (List.mem_cons_self e l)
      cases e with
      | outChunk s =>
          have hs : qcontains s connected_token = false := by
            simpa [chunk_quiet] using he
          simpa [start_and_block_until_connected, hs] using
            ih (fun x hx => hq x (List.mem_cons_of_mem _ hx))
      | finished st => simp [chunk_quiet] at he

/-- C6 counterexample: the token bytes arrive split across two separate
output-readable notifications; the accumulated output contains the token,
yet the wait does not return ready — it returns exited when the process
later finishes.  The claim that a split token is still detected is false:
each notification reads and consumes the fresh data and only that data is
searched. -/
theorem claim_C6_counterexample :
    qcontains ("Conn" ++ "ected") connected_token = true ∧
    start_and_block_until_connected
        [ProcEvent.outChunk "Conn", ProcEvent.outChunk "ected",
         ProcEvent.finished { exit_code := some 0, error := false }] =
      some (AwaitOutcome.exited { exit_code := some 0, error := false }) ∧
    start_and_block_until_connected
        [ProcEvent.outChunk "Conn", ProcEvent.outChunk "ected",
         ProcEvent.finished { exit_code := some 0, error := false }] ≠
      some AwaitOutcome.ready := by decide

/-- C6 as amended: the wait blocks until either the token appears as a
case-sensitive, non-line-anchored substring of the data read at one single
output notification — the earlier notifications having neither matched nor
finished — in which case it returns ready with the process still running,
or the process finishes before any single notification's data contains the
token, in which case it returns exited with the captured exit state.  A
token split across notifications is not detected. -/
theorem claim_C6_await_per_chunk :
    (∀ (l1 : List ProcEvent) (s : String) (l2 : List ProcEvent),
      (∀ e ∈ l1, chunk_quiet e = true) → qcontains s connected_token = true →
      start_and_block_until_connected (l1 ++ ProcEvent.outChunk s :: l2) =
        some AwaitOutcome.ready) ∧
    (∀ (l1 : List ProcEvent) (st : ProcessState) (l2 : List ProcEvent),
      (∀ e ∈ l1, chunk_quiet e = true) →
      start_and_block_until_connected (l1 ++ ProcEvent.finished st :: l2) =
        some (AwaitOutcome.exited st)) := by
  constructor
  · intro l1 s l2 hq hs
    rw [await_skips_quiet l1 _ hq]
    simp [start_and_block_until_connected, hs]
  · intro l1 st l2 hq
    rw [await_skips_quiet l1 _ hq]
    rfl

/-- Witness for the amended C6: a quiet chunk followed by a chunk containing
the token yields ready, and a quiet chunk followed by the finished
notification yields exited with the same exit state. -/
theorem claim_C6_witness :
    start_and_block_until_connected
        [ProcEvent.outChunk "sshfs_server: starting",
         ProcEvent.outChunk "xConnected!"] =
      some AwaitOutcome.ready ∧
    start_and_block_until_connected
        [ProcEvent.outChunk "sshfs_server: starting",
         ProcEvent.finished { exit_code := some 9, error := false }] =
      some (AwaitOutcome.exited { exit_code := some 9, error := false }) :=
  ⟨claim_C6_await_per_chunk.1 [ProcEvent.outChunk "sshfs_server: starting"]
      "xConnected!" [] (by decide) (by decide),
   claim_C6_await_per_chunk.2 [ProcEvent.outChunk "sshfs_server: starting"]
      { exit_code := some 9, error := false } [] (by decide)⟩

end Multipass
